import Mathlib

/-!
Shallow embedding of the scheduling and timing engine of `elements.py`
from the mercury repository: the pausable `Clock`, the `Routine` family
(`Hold`, `Ramp`, `Sweep`, `Transit`), the `Schedule`, the `InstrumentSet`
alarm logic and the `Experiment` driver loop.

Wall-clock time (each call of `time.time()` in the source) is modelled as
an explicit trace `w : Nat -> Rat` together with a call counter: the n-th
call of `time.time()` returns `w n`.  Python `None` results are
`Option.none`; Python exceptions are `Except.error` carrying the
exception text.  `np.inf` as the upper bound of a time window is
`Option.none`.
-/

namespace Mercury

/-- Python truthiness of the `stop_time` attribute of `Clock`: both `None`
and `0` are falsy in `if not self.stop_time`. -/
def truthy : Option ℚ → Bool
  | none => false
  | some t => decide (t ≠ 0)

/-- State of `Clock` (elements.py lines 80 to 107): `start_time`, the
optional `stop_time` (set while paused) and the accumulated
`total_stoppage`. -/
structure Clock where
  start_time : ℚ
  stop_time : Option ℚ
  total_stoppage : ℚ
deriving DecidableEq

/-- `Clock.start`: resets the origin to the given wall reading, clears the
pause state and the accumulated stoppage. -/
def Clock.started (now : ℚ) : Clock :=
  { start_time := now, stop_time := none, total_stoppage := 0 }

/-- `Clock.time` evaluated at one wall reading `now`: elapsed time while
running, frozen at the pause instant while paused. -/
def Clock.timeAt (c : Clock) (now : ℚ) : ℚ :=
  if truthy c.stop_time then c.stop_time.getD 0 - c.start_time - c.total_stoppage
  else now - c.start_time - c.total_stoppage

/-- `Clock.time` with wall-trace threading: `time.time()` is consulted
(and the counter advanced) only when the clock is not paused. -/
def Clock.timeC (c : Clock) (w : ℕ → ℚ) (k : ℕ) : ℚ × ℕ :=
  if truthy c.stop_time then (c.stop_time.getD 0 - c.start_time - c.total_stoppage, k)
  else (w k - c.start_time - c.total_stoppage, k + 1)

/-- `Clock.stop`: records the pause instant unless already (truthily)
paused. -/
def Clock.stopAt (c : Clock) (now : ℚ) : Clock :=
  if truthy c.stop_time then c else { c with stop_time := some now }

/-- `Clock.stop` with wall-trace threading. -/
def Clock.stopC (c : Clock) (w : ℕ → ℚ) (k : ℕ) : Clock × ℕ :=
  if truthy c.stop_time then (c, k) else ({ c with stop_time := some (w k) }, k + 1)

/-- `Clock.start` with wall-trace threading. -/
def Clock.startC (w : ℕ → ℚ) (k : ℕ) : Clock × ℕ :=
  (Clock.started (w k), k + 1)

/-- `Clock.resume`: if (truthily) paused, adds the paused interval to the
stoppage and clears the pause instant; otherwise does nothing. -/
def Clock.resumeAt (c : Clock) (now : ℚ) : Clock :=
  if truthy c.stop_time then
    { c with total_stoppage := c.total_stoppage + (now - c.stop_time.getD 0),
             stop_time := none }
  else c

/-- One pause or resume call at a wall instant: `true` is `stop` (pause),
`false` is `resume`. -/
def Clock.event (c : Clock) : Bool × ℚ → Clock
  | (true, t) => c.stopAt t
  | (false, t) => c.resumeAt t

/-- Runs a sequence of pause and resume calls on a clock. -/
def Clock.runTrace (c : Clock) : List (Bool × ℚ) → Clock
  | [] => c
  | e :: r => (c.event e).runTrace r

/-- Follows the words of the spec (section 8): the sum of all paused
intervals of a pause/resume trace, starting from pause state `p`
(`some t` means paused since instant `t`).  A pause while paused and a
resume while running contribute nothing. -/
def specPausedSum : Option ℚ → List (Bool × ℚ) → ℚ
  | _, [] => 0
  | none, (true, t) :: r => specPausedSum (some t) r
  | none, (false, _) :: r => specPausedSum none r
  | some p, (true, _) :: r => specPausedSum (some p) r
  | some p, (false, t) :: r => (t - p) + specPausedSum none r

/-- Follows the words of the spec (section 8): the pause state left by a
pause/resume trace. -/
def specPausedAfter : Option ℚ → List (Bool × ℚ) → Option ℚ
  | p, [] => p
  | none, (true, t) :: r => specPausedAfter (some t) r
  | none, (false, _) :: r => specPausedAfter none r
  | some p, (true, _) :: r => specPausedAfter (some p) r
  | some _, (false, _) :: r => specPausedAfter none r

/-- `InstrumentSet.alarm_map` (elements.py lines 160 to 167): the alarm
trigger classifications, keyed by condition string.  Note that the source
implements `GEQ` with the strict comparison `val > thres`, identical to
`GREATER`. -/
def alarm_map : String → Option (ℚ → ℚ → Bool)
  | "IS" => some fun v t => decide (v = t)
  | "NOT" => some fun v t => decide (v ≠ t)
  | "GREATER" => some fun v t => decide (v > t)
  | "GEQ" => some fun v t => decide (v > t)
  | "LESS" => some fun v t => decide (v < t)
  | "LEQ" => some fun v t => decide (v ≤ t)
  | _ => none

/-- A Python value that is either a bare number or a list of numbers (the
`times` and `values` arguments of `Routine`). -/
inductive PyVal where
  | num : ℚ → PyVal
  | list : List ℚ → PyVal
deriving DecidableEq

/-- State stored by `Routine.__init__` (elements.py lines 310 to 322): the
raw `times` and `values` arguments and, when `values` is iterable, the
`values_iter` iterator (modelled as the list plus a cursor).  When
`values` is a bare number, `iter(values)` raises `TypeError`, which
`__init__` catches and ignores, leaving `values_iter` unset (`none`).
The `time_attr` field models the `self.time` attribute set by
`Transit.__next__`. -/
structure RoutineState where
  times : PyVal
  values : PyVal
  values_iter : Option (List ℚ × ℕ)
  time_attr : Option ℚ
deriving DecidableEq

/-- `Routine.__init__`: stores the arguments without any validation. -/
def Routine.init (times values : PyVal) : RoutineState :=
  { times := times,
    values := values,
    values_iter := match values with
      | .num _ => none
      | .list l => some (l, 0),
    time_attr := none }

/-- Result of one `__next__` call on a routine: the new routine state, the
emitted value (`none` is Python `None`, meaning no change), the elapsed
clock reading the routine observed, and the wall-trace counter. -/
structure StepOut where
  state : RoutineState
  value : Option ℚ
  elapsed : ℚ
  k : ℕ
deriving DecidableEq

/-- Window resolution of `Hold.__next__`: a bare number (the `TypeError`
branch) or a 1-element list gives `(start, np.inf)`; a 2-element list
gives both bounds; any other list raises `IndexError`. -/
def Hold.window : PyVal → Except String (ℚ × Option ℚ)
  | .num x => .ok (x, none)
  | .list [x] => .ok (x, none)
  | .list [x, y] => .ok (x, some y)
  | .list _ => .error "IndexError: The times argument must be either a 1- or 2- element list, or a number!"

/-- Value resolution of `Hold.__next__`: `self.values[0]` for a list (an
empty list raises `IndexError`, uncaught since only `TypeError` is
handled), or the bare number itself via the `TypeError` branch. -/
def Hold.value : PyVal → Except String ℚ
  | .num x => .ok x
  | .list [] => .error "IndexError: list index out of range"
  | .list (x :: _) => .ok x

/-- Window resolution of `Ramp.__next__` and `Sweep.__next__`: no
`TypeError` handler, so a bare number fails at `len`; a list of three or
more (or zero) elements raises `IndexError`. -/
def Ramp.window : PyVal → Except String (ℚ × Option ℚ)
  | .num _ => .error "TypeError: object of type number has no len"
  | .list [x] => .ok (x, none)
  | .list [x, y] => .ok (x, some y)
  | .list _ => .error "IndexError: The times argument must be either a 1- or 2-element list!"

/-- Value resolution of `Ramp.__next__`: `start_value, end_value =
self.values` unpacks exactly two values. -/
def Ramp.valuePair : PyVal → Except String (ℚ × ℚ)
  | .num _ => .error "TypeError: cannot unpack non-iterable value"
  | .list [a, b] => .ok (a, b)
  | .list _ => .error "ValueError: expected exactly two values to unpack"

/-- Window resolution of `Sweep.__next__`, identical to the one of
`Ramp.__next__`. -/
def Sweep.window : PyVal → Except String (ℚ × Option ℚ) := Ramp.window

/-- Window resolution of `Transit.__next__`: a bare number (the
`TypeError` branch) or a 1-element list gives the single cutoff time. -/
def Transit.window : PyVal → Except String ℚ
  | .num x => .ok x
  | .list [x] => .ok x
  | .list _ => .error "IndexError: The times argument must be either a 1-element list, or a number!"

/-- The test `start <= now <= end`, where `end = none` stands for
`np.inf`. -/
def inWindow (now start : ℚ) : Option ℚ → Bool
  | none => decide (start ≤ now)
  | some e => decide (start ≤ now) && decide (now ≤ e)

/-- The interpolation fraction `(now - start) / (end - start)` of
`Ramp.__next__`; with `end = np.inf` the source divides a finite float by
infinity, which yields `0.0`.  (The case `end = start`, a float division
by zero in the source, is represented by the rational convention
`x / 0 = 0` and is not relied on by any theorem.) -/
def rampFrac (now start : ℚ) : Option ℚ → ℚ
  | none => 0
  | some e => (now - start) / (e - start)

/-- `Hold.__next__` (elements.py lines 337 to 359). -/
def Hold.next (w : ℕ → ℚ) (k : ℕ) (clock : Clock) (r : RoutineState) :
    Except String StepOut := do
  let (start, stop) ← Hold.window r.times
  let v ← Hold.value r.values
  let (now, k1) := clock.timeC w k
  if inWindow now start stop then .ok ⟨r, some v, now, k1⟩
  else .ok ⟨r, none, now, k1⟩

/-- `Ramp.__next__` (elements.py lines 367 to 382). -/
def Ramp.next (w : ℕ → ℚ) (k : ℕ) (clock : Clock) (r : RoutineState) :
    Except String StepOut := do
  let (start, stop) ← Ramp.window r.times
  let (a, b) ← Ramp.valuePair r.values
  let (now, k1) := clock.timeC w k
  if inWindow now start stop then
    .ok ⟨r, some (a + (b - a) * rampFrac now start stop), now, k1⟩
  else .ok ⟨r, none, now, k1⟩

/-- `Transit.__next__` (elements.py lines 390 to 403): resolves the single
cutoff, records the reading in `self.time`, and inside the window emits
`next(self.values_iter, None)`. -/
def Transit.next (w : ℕ → ℚ) (k : ℕ) (clock : Clock) (r : RoutineState) :
    Except String StepOut := do
  let stop ← Transit.window r.times
  let (now, k1) := clock.timeC w k
  let r1 := { r with time_attr := some now }
  if now ≤ stop then
    match r1.values_iter with
    | none => .error "AttributeError: values_iter is not set"
    | some (l, i) =>
        if h : i < l.length then
          .ok ⟨{ r1 with values_iter := some (l, i + 1) }, some (l.get ⟨i, h⟩), now, k1⟩
        else .ok ⟨r1, none, now, k1⟩
  else .ok ⟨r1, none, now, k1⟩

/-- `Sweep.__next__` (elements.py lines 411 to 428): inside the window
emits `next(self.values_iter)`; on `StopIteration` rebuilds the iterator
from `self.values` and emits its first element (so an empty list raises
`StopIteration` again, and a bare number raises `TypeError`). -/
def Sweep.next (w : ℕ → ℚ) (k : ℕ) (clock : Clock) (r : RoutineState) :
    Except String StepOut := do
  let (start, stop) ← Sweep.window r.times
  let (now, k1) := clock.timeC w k
  if inWindow now start stop then
    match r.values_iter with
    | none => .error "AttributeError: values_iter is not set"
    | some (l, i) =>
        if h : i < l.length then
          .ok ⟨{ r with values_iter := some (l, i + 1) }, some (l.get ⟨i, h⟩), now, k1⟩
        else
          match r.values with
          | .num _ => .error "TypeError: values is not iterable"
          | .list [] => .error "StopIteration"
          | .list (x :: xs) =>
              .ok ⟨{ r with values_iter := some (x :: xs, 1) }, some x, now, k1⟩
  else .ok ⟨r, none, now, k1⟩

/-- The four routine kinds of the dispatch table in `Schedule.add`. -/
inductive RKind where
  | hold
  | ramp
  | sweep
  | transit
deriving DecidableEq

/-- Dispatch of `__next__` on the routine kind. -/
def Routine.next : RKind → (ℕ → ℚ) → ℕ → Clock → RoutineState → Except String StepOut
  | .hold => Hold.next
  | .ramp => Ramp.next
  | .sweep => Sweep.next
  | .transit => Transit.next

/-- Update of one key of a Python dict modelled as an association list:
an existing key keeps its position, a new key is appended. -/
def updateAssoc {α : Type} : List (String × α) → String → α → List (String × α)
  | [], k, v => [(k, v)]
  | (k0, v0) :: r, k, v =>
      if k0 = k then (k0, v) :: r else (k0, v0) :: updateAssoc r k v

/-- `dict.update` with a whole dict: left-to-right single-key updates. -/
def updateAssocAll {α : Type} : List (String × α) → List (String × α) → List (String × α)
  | d, [] => d
  | d, (k, v) :: r => updateAssocAll (updateAssoc d k v) r

/-- `dict.get(key, None)` on an association list. -/
def lookupAssoc {α : Type} : List (String × α) → String → Option α
  | [], _ => none
  | (k0, v0) :: r, k => if k0 = k then some v0 else lookupAssoc r k

/-- State of `Schedule` (elements.py lines 430 to 493): the shared clock
and the ordered map from routine name to (knob variable, kind, routine
state).  In the source every routine stores a reference to the identical
clock object of the schedule; here the sharing is by construction: the
schedule clock is the only clock the routines are evaluated against. -/
structure Schedule where
  clock : Clock
  routines : List (String × String × RKind × RoutineState)
deriving DecidableEq

/-- A time specification entry of a runcard: a bare number of seconds or a
number with a unit suffix (the source string, for example "6 hours", is
pre-split into the number and the unit word). -/
inductive TimeVal where
  | num : ℚ → TimeVal
  | withUnit : ℚ → String → TimeVal
deriving DecidableEq

/-- The unit dictionary of `convert_time` (elements.py lines 25 to 29). -/
def unitSeconds : String → Option ℚ
  | "minutes" => some 60
  | "minute" => some 60
  | "hours" => some 3600
  | "hour" => some 3600
  | "days" => some 86400
  | "day" => some 86400
  | _ => none

/-- `convert_time` (elements.py lines 13 to 29): numbers pass through,
unit-suffixed values are scaled to seconds; an unknown unit raises
`KeyError`. -/
def convert_time : TimeVal → Except String ℚ
  | .num x => .ok x
  | .withUnit v u =>
      match unitSeconds u with
      | some m => .ok (v * m)
      | none => .error "KeyError: unknown time unit"

/-- One named routine specification of a runcard (the argument of
`Schedule.add`). -/
structure RoutineSpec where
  routine : String
  var : String
  values : PyVal
  times : List TimeVal
deriving DecidableEq

/-- The kind dispatch dict of `Schedule.add`; an unknown kind raises
`KeyError`. -/
def kindOf : String → Option RKind
  | "Hold" => some .hold
  | "Ramp" => some .ramp
  | "Sweep" => some .sweep
  | "Transit" => some .transit
  | _ => none

/-- The time-conversion loop of `Schedule.add`: converts every entry of
the `times` list in order, propagating the first failure. -/
def convertTimes : List TimeVal → Except String (List ℚ)
  | [] => .ok []
  | t :: r => do
      let x ← convert_time t
      let xs ← convertTimes r
      .ok (x :: xs)

/-- One iteration of the loop of `Schedule.add` (elements.py lines 448 to
471): converts every time value, dispatches on the kind and registers the
constructed routine.  No shape validation of `times` or `values` happens
here. -/
def Schedule.addOne (sch : Schedule) (name : String) (sp : RoutineSpec) :
    Except String Schedule := do
  let times ← convertTimes sp.times
  match kindOf sp.routine with
  | none => .error "KeyError: unknown routine kind"
  | some kind =>
      .ok { sch with routines :=
              updateAssoc sch.routines name (sp.var, kind, Routine.init (.list times) sp.values) }

/-- `Schedule.add`: registers a whole dict of routine specifications. -/
def Schedule.add (sch : Schedule) : List (String × RoutineSpec) → Except String Schedule
  | [] => .ok sch
  | (name, sp) :: rest => do
      let sch1 ← Schedule.addOne sch name sp
      Schedule.add sch1 rest

/-- The loop body of `Schedule.__next__` over the registered routines:
threads the wall-trace counter, accumulates the output configuration dict
and records the elapsed reading each routine observed. -/
def Schedule.stepAux (w : ℕ → ℚ) (clock : Clock) :
    List (String × String × RKind × RoutineState) → ℕ →
    List (String × Option ℚ) → List ℚ →
    Except String (List (String × String × RKind × RoutineState) × List (String × Option ℚ) × List ℚ × ℕ)
  | [], k, acc, els => .ok ([], acc, els, k)
  | (name, var, kind, r) :: rest, k, acc, els => do
      let o ← Routine.next kind w k clock r
      let res ←
        Schedule.stepAux w clock rest o.k (updateAssoc acc var o.value) (els ++ [o.elapsed])
      .ok ((name, var, kind, o.state) :: res.1, res.2.1, res.2.2.1, res.2.2.2)

/-- `Schedule.__next__` (elements.py lines 485 to 493): calls `__next__`
on every registered routine in order (each of which reads the shared
clock separately) and returns the combined knob-to-value map.  Also
returns the list of elapsed readings the routines observed. -/
def Schedule.next (w : ℕ → ℚ) (k : ℕ) (sch : Schedule) :
    Except String (Schedule × List (String × Option ℚ) × List ℚ × ℕ) := do
  let res ← Schedule.stepAux w sch.clock sch.routines k [] []
  .ok ({ sch with routines := res.1 }, res.2.1, res.2.2.1, res.2.2.2)

/-- One alarm entry of `InstrumentSet.alarms`, with the `triggered` flag
added by `__init__`. -/
structure Alarm where
  meter : String
  condition : String
  threshold : ℚ
  protocol : String
  triggered : Bool
deriving DecidableEq

/-- The instrument-facing state the driver loop consumes: the alarm dict
and the last known (read-back) knob values of the mapped variables. -/
structure InstrumentSet where
  alarms : List (String × Alarm)
  knob_values : String → ℚ

/-- External inputs of one driver step: whether `InstrumentSet.apply`
raises, the measurements returned by `read()` with no meter list, and the
per-meter measurement used with an explicit meter list. -/
structure Env where
  applyFails : Bool
  measured : List (String × ℚ)
  measure : String → ℚ

/-- `InstrumentSet.check_alarms` (elements.py lines 283 to 302): for every
alarm whose meter has a reading, evaluates the condition and latches
`triggered` to true when it holds; `triggered` is never cleared. -/
def checkAlarms : List (String × Alarm) → List (String × ℚ) → Except String (List (String × Alarm))
  | [], _ => .ok []
  | (name, a) :: rest, readings =>
      match lookupAssoc readings a.meter with
      | none => do
          let r2 ← checkAlarms rest readings
          .ok ((name, a) :: r2)
      | some v =>
          match alarm_map a.condition with
          | none => .error "KeyError: unknown alarm condition"
          | some f => do
              let r2 ← checkAlarms rest readings
              if f v a.threshold then .ok ((name, { a with triggered := true }) :: r2)
              else .ok ((name, a) :: r2)

/-- `InstrumentSet.read` (elements.py lines 257 to 281): with `meters =
None` it returns the measurements of all mapped meters at once, before
the `check_alarms` call is reached; with an explicit meter list it reads
those meters and then checks the alarms. -/
def InstrumentSet.read (env : Env) (ins : InstrumentSet) (meters : Option (List String)) :
    Except String (InstrumentSet × List (String × ℚ)) :=
  match meters with
  | none => .ok (ins, env.measured)
  | some ms =>
      let readings := ms.map fun m => (m, env.measure m)
      do
        let alarms2 ← checkAlarms ins.alarms readings
        .ok ({ ins with alarms := alarms2 }, readings)

/-- Observable side effects of one driver step, in program order. -/
inductive Effect where
  | dumpRuncard
  | clockStart
  | clockStop
  | disconnect
  | sleep
  | applyConfig
  | readMeters
  | saveCsv
deriving DecidableEq

/-- Result of one `Experiment.__next__` call: `stop` is `StopIteration`,
`value` carries the state snapshot returned to the caller. -/
inductive Outcome where
  | stop
  | value : List (String × ℚ) → Outcome
deriving DecidableEq

/-- State of `Experiment` (elements.py lines 496 to 624): the save-timing
clock, the throttle timestamps (`none` is the initial `-np.inf`), the
relevant experiment settings, the schedule, the instrument view, the
recorded data and the `running`, `finished` and `followup` flags. -/
structure ExpState where
  clock : Clock
  last_step : Option ℚ
  last_save : Option ℚ
  duration : TimeVal
  step_interval : ℚ
  save_interval : ℚ
  schedule : Schedule
  instruments : InstrumentSet
  data : List (List (String × ℚ))
  running : Bool
  finished : Bool
  followup : List (Option String)

/-- The comparison `now >= last + interval` with `last = none` standing
for `-np.inf` (always true). -/
def geOpt (now : ℚ) (last : Option ℚ) (interval : ℚ) : Bool :=
  match last with
  | none => true
  | some l => decide (now ≥ l + interval)

/-- The comparison `now < last + interval` with `last = none` standing for
`-np.inf` (always false). -/
def ltOpt (now : ℚ) (last : Option ℚ) (interval : ℚ) : Bool :=
  match last with
  | none => false
  | some l => decide (now < l + interval)

/-- `Experiment.save` (elements.py lines 547 to 559): flushes the data to
CSV when the save interval has elapsed since the last save, or
unconditionally when forced; a flush re-reads the clock to stamp
`last_save`. -/
def Experiment.save (w : ℕ → ℚ) (k : ℕ) (s : ExpState) (save_now : Bool) :
    ExpState × ℕ × List Effect :=
  let now := (s.clock.timeC w k).1
  let k1 := (s.clock.timeC w k).2
  if geOpt now s.last_save s.save_interval || save_now then
    ({ s with last_save := some (s.clock.timeC w k1).1 }, (s.clock.timeC w k1).2, [.saveCsv])
  else (s, k1, [])

/-- The loop over `self.instruments.alarms` in `Experiment.__next__`
(elements.py lines 589 to 592): every triggered alarm prepends its
protocol to the follow-up list and flags termination. -/
def alarmFold : List (String × Alarm) → List (Option String) → Bool →
    List (Option String) × Bool
  | [], fu, fin => (fu, fin)
  | (_, a) :: rest, fu, fin =>
      if a.triggered then alarmFold rest (some a.protocol :: fu) true
      else alarmFold rest fu fin

/-- `Experiment.__next__` (elements.py lines 564 to 624).  Returns the new
experiment state, the wall-trace counter, the effects performed in order,
and the outcome: `StopIteration`, a snapshot value, or a propagated
exception. -/
def Experiment.next (w : ℕ → ℚ) (k : ℕ) (env : Env) (s : ExpState) :
    ExpState × ℕ × List Effect × Except String Outcome :=
  if s.finished then
    let s1 := { s with running := false }
    let sv := Experiment.save w k s1 true
    let s2 := sv.1
    let k1 := sv.2.1
    let clk2 := (s2.schedule.clock.stopC w k1).1
    let k2 := (s2.schedule.clock.stopC w k1).2
    let s3 := { s2 with schedule := { s2.schedule with clock := clk2 } }
    (s3, k2, sv.2.2 ++ [.clockStop, .disconnect], .ok .stop)
  else
    let st1 :=
      if s.running then (s, k, ([] : List Effect))
      else
        ({ s with schedule := { s.schedule with clock := (Clock.startC w k).1 },
                  running := true },
          (Clock.startC w k).2, [Effect.dumpRuncard, Effect.clockStart])
    let s1 := st1.1
    let k1 := st1.2.1
    let eff1 := st1.2.2
    match convert_time s1.duration with
    | .error e => (s1, k1, eff1, .error e)
    | .ok dur =>
        let t1 := (s1.schedule.clock.timeC w k1).1
        let k2 := (s1.schedule.clock.timeC w k1).2
        let s2 := if dur < t1 then { s1 with finished := true } else s1
        let af := alarmFold s2.instruments.alarms s2.followup s2.finished
        let s3 := { s2 with followup := af.1, finished := af.2 }
        let now := (s3.schedule.clock.timeC w k2).1
        let k3 := (s3.schedule.clock.timeC w k2).2
        let eff2 := if ltOpt now s3.last_step s3.step_interval then [Effect.sleep] else []
        let ls := (s3.schedule.clock.timeC w k3).1
        let k4 := (s3.schedule.clock.timeC w k3).2
        let s4 := { s3 with last_step := some ls }
        match Schedule.next w k4 s4.schedule with
        | .error e => (s4, k4, eff1 ++ eff2, .error e)
        | .ok res =>
            let sched2 := res.1
            let config := res.2.1
            let k5 := res.2.2.2
            let s5 := { s4 with schedule := sched2 }
            let config2 := config.map fun p =>
              (p.1, match p.2 with
                | some v => v
                | none => s5.instruments.knob_values p.1)
            if env.applyFails then (s5, k5, eff1 ++ eff2, .error "InstrumentError: apply failed")
            else
              match InstrumentSet.read env s5.instruments none with
              | .error e => (s5, k5, eff1 ++ eff2 ++ [.applyConfig], .error e)
              | .ok rd =>
                  let s6 := { s5 with instruments := rd.1 }
                  let tt := (s6.clock.timeC w k5).1
                  let k6 := (s6.clock.timeC w k5).2
                  let st := (s6.schedule.clock.timeC w k6).1
                  let k7 := (s6.schedule.clock.timeC w k6).2
                  let snap := updateAssocAll (updateAssocAll config2 rd.2)
                    [("Total Time", tt), ("Schedule Time", st)]
                  let s7 := { s6 with data := s6.data ++ [snap] }
                  let sv2 := Experiment.save w k7 s7 false
                  (sv2.1, sv2.2.1, eff1 ++ eff2 ++ [.applyConfig, .readMeters] ++ sv2.2.2,
                    .ok (.value snap))

/-- Repeated step requests on the driver loop, discarding the outcomes. -/
def Experiment.run (w : ℕ → ℚ) (env : Env) : ℕ → ℕ × ExpState → ℕ × ExpState
  | 0, p => p
  | n + 1, (k, s) =>
      let r := Experiment.next w k env s
      Experiment.run w env n (r.2.1, r.1)

/-! Concrete fixtures used by the per-claim evaluation theorems. -/

/-- A wall trace frozen at 100 seconds. -/
def w100 : ℕ → ℚ := fun _ => 100

/-- A wall trace frozen at 10 seconds. -/
def w10 : ℕ → ℚ := fun _ => 10

/-- A wall trace that advances from 5 to 20 after its first reading. -/
def c2w : ℕ → ℚ := fun i => if i = 0 then 5 else 20

/-- An external environment in which every instrument call succeeds and no
meter is mapped. -/
def envOk : Env := { applyFails := false, measured := [], measure := fun _ => 0 }

/-- An instrument set with no alarms. -/
def insNone : InstrumentSet := { alarms := [], knob_values := fun _ => 0 }

/-- A Hold routine on window [0, 10] holding the value 1. -/
def c2r : RoutineState := Routine.init (.list [0, 10]) (.num 1)

/-- A schedule with two identical Hold routines sharing one clock. -/
def c2sch : Schedule :=
  { clock := Clock.started 0,
    routines := [("r1", "knob1", .hold, c2r), ("r2", "knob2", .hold, c2r)] }

/-- A running experiment with duration 10 and no alarms. -/
def c1exp : ExpState :=
  { clock := Clock.started 0, last_step := none, last_save := none,
    duration := .num 10, step_interval := 0, save_interval := 60,
    schedule := { clock := Clock.started 0, routines := [] },
    instruments := insNone, data := [], running := true, finished := false,
    followup := [none] }

/-- An alarm on meter M with condition GREATER and threshold 0, not yet
triggered. -/
def c3alarm : Alarm :=
  { meter := "M", condition := "GREATER", threshold := 0, protocol := "bail",
    triggered := false }

/-- An instrument set carrying only the GREATER alarm on meter M. -/
def c3ins : InstrumentSet := { alarms := [("A", c3alarm)], knob_values := fun _ => 0 }

/-- An environment whose meter M reads 5, which satisfies the GREATER
condition of the alarm. -/
def c3env : Env := { applyFails := false, measured := [("M", 5)], measure := fun _ => 5 }

/-- A running experiment with duration 100 and the GREATER alarm. -/
def c3exp : ExpState :=
  { clock := Clock.started 0, last_step := none, last_save := none,
    duration := .num 100, step_interval := 0, save_interval := 60,
    schedule := { clock := Clock.started 0, routines := [] },
    instruments := c3ins, data := [], running := true, finished := false,
    followup := [none] }

/-- An environment whose apply call fails. -/
def envFail : Env := { applyFails := true, measured := [], measure := fun _ => 0 }

/-- A Sweep routine over the values [1, 2, 3] with the unbounded window
starting at 0. -/
def c7r0 : RoutineState := Routine.init (.list [0]) (.list [1, 2, 3])

/-- A wall trace frozen at 1 second. -/
def w1 : ℕ → ℚ := fun _ => 1

/-! Helper lemmas. -/

/-- The first component of the counter-threaded clock reading is the
reading of `Clock.time` at the consulted wall instant. -/
theorem Clock.timeC_fst (c : Clock) (w : ℕ → ℚ) (k : ℕ) :
    (c.timeC w k).1 = c.timeAt (w k) := by
  unfold Clock.timeC Clock.timeAt
  split <;> rfl

/-- Characterisation of a pause/resume trace on a clock whose recorded
pause instant, if any, is positive: the origin is unchanged, the final
pause state is the one the spec-side recursion computes, and the
accumulated stoppage grows by the spec-side sum of paused intervals. -/
theorem Clock.runTrace_eq (tr : List (Bool × ℚ)) (c : Clock)
    (hc : ∀ t, c.stop_time = some t → 0 < t)
    (htr : ∀ e ∈ tr, 0 < e.2) :
    c.runTrace tr =
      { start_time := c.start_time,
        stop_time := specPausedAfter c.stop_time tr,
        total_stoppage := c.total_stoppage + specPausedSum c.stop_time tr } := by
  induction tr generalizing c with
  | nil =>
      simp only [Clock.runTrace, specPausedAfter, specPausedSum, add_zero]
  | cons e rest ih =>
      obtain ⟨b, t⟩ := e
      have ht : 0 < t := htr (b, t) (List.mem_cons_self _ _)
      have htr2 : ∀ e ∈ rest, 0 < e.2 := fun e he => htr e (List.mem_cons_of_mem _ he)
      cases hs : c.stop_time with
      | none =>
          cases b with
          | true =>
              have hstep : c.event (true, t) = { c with stop_time := some t } := by
                simp [Clock.event, Clock.stopAt, truthy, hs]
              have hnew : ∀ u, ({ c with stop_time := some t } : Clock).stop_time = some u → 0 < u := by
                intro u hu
                simp only [Option.some.injEq] at hu
                exact hu ▸ ht
              simp only [Clock.runTrace, hstep]
              rw [ih _ hnew htr2]
              simp [specPausedAfter, specPausedSum, hs]
          | false =>
              have hstep : c.event (false, t) = c := by
                simp [Clock.event, Clock.resumeAt, truthy, hs]
              simp only [Clock.runTrace, hstep]
              rw [ih _ (by rw [hs]; intro u hu; cases hu) htr2]
              simp [specPausedAfter, specPausedSum, hs]
      | some p =>
          have hp : 0 < p := hc p hs
          have hpt : truthy (some p) = true := by
            simp [truthy]
            exact ne_of_gt hp
          cases b with
          | true =>
              have hstep : c.event (true, t) = c := by
                simp [Clock.event, Clock.stopAt, hs, hpt]
              simp only [Clock.runTrace, hstep]
              rw [ih _ hc htr2]
              simp [specPausedAfter, specPausedSum, hs]
          | false =>
              have hstep : c.event (false, t) =
                  { c with total_stoppage := c.total_stoppage + (t - p), stop_time := none } := by
                simp [Clock.event, Clock.resumeAt, hs, hpt]
              simp only [Clock.runTrace, hstep]
              rw [ih _ (by intro u hu; cases hu) htr2]
              simp only [specPausedAfter, specPausedSum, hs, Clock.mk.injEq]
              refine ⟨trivial, trivial, by ring⟩

/-- Strictly before the window start, or strictly after a finite window
end, the window test is false. -/
theorem inWindow_eq_false (now start : ℚ) (stop : Option ℚ)
    (h : now < start ∨ ∃ e, stop = some e ∧ e < now) : inWindow now start stop = false := by
  rcases h with h | ⟨e, rfl, hlt⟩
  · cases stop with
    | none => simp [inWindow, not_le.mpr h]
    | some e => simp [inWindow, not_le.mpr h]
  · simp [inWindow, not_le.mpr hlt]

/-- Outside its window, `Hold.__next__` leaves the routine unchanged and
emits `None`. -/
theorem hold_next_outside (w : ℕ → ℚ) (k : ℕ) (clock : Clock) (r : RoutineState)
    (start : ℚ) (stop : Option ℚ) (v : ℚ)
    (hw : Hold.window r.times = .ok (start, stop))
    (hv : Hold.value r.values = .ok v)
    (h : (clock.timeC w k).1 < start ∨ ∃ e, stop = some e ∧ e < (clock.timeC w k).1) :
    Hold.next w k clock r = .ok ⟨r, none, (clock.timeC w k).1, (clock.timeC w k).2⟩ := by
  have hfalse := inWindow_eq_false _ _ _ h
  simp [Hold.next, hw, hv, hfalse, Bind.bind, Except.bind]

/-- Outside its window, `Ramp.__next__` leaves the routine unchanged and
emits `None`. -/
theorem ramp_next_outside (w : ℕ → ℚ) (k : ℕ) (clock : Clock) (r : RoutineState)
    (start : ℚ) (stop : Option ℚ) (a b : ℚ)
    (hw : Ramp.window r.times = .ok (start, stop))
    (hv : Ramp.valuePair r.values = .ok (a, b))
    (h : (clock.timeC w k).1 < start ∨ ∃ e, stop = some e ∧ e < (clock.timeC w k).1) :
    Ramp.next w k clock r = .ok ⟨r, none, (clock.timeC w k).1, (clock.timeC w k).2⟩ := by
  have hfalse := inWindow_eq_false _ _ _ h
  simp [Ramp.next, hw, hv, hfalse, Bind.bind, Except.bind]

/-- Outside its window, `Sweep.__next__` leaves the routine (in
particular its cursor) unchanged and emits `None`. -/
theorem sweep_next_outside (w : ℕ → ℚ) (k : ℕ) (clock : Clock) (r : RoutineState)
    (start : ℚ) (stop : Option ℚ)
    (hw : Sweep.window r.times = .ok (start, stop))
    (h : (clock.timeC w k).1 < start ∨ ∃ e, stop = some e ∧ e < (clock.timeC w k).1) :
    Sweep.next w k clock r = .ok ⟨r, none, (clock.timeC w k).1, (clock.timeC w k).2⟩ := by
  have hfalse := inWindow_eq_false _ _ _ h
  simp [Sweep.next, hw, hfalse, Bind.bind, Except.bind]

/-- Past its cutoff, `Transit.__next__` emits `None` and leaves the
cursor unchanged (only the `self.time` attribute is refreshed). -/
theorem transit_next_outside (w : ℕ → ℚ) (k : ℕ) (clock : Clock) (r : RoutineState)
    (stop : ℚ)
    (hw : Transit.window r.times = .ok stop)
    (h : stop < (clock.timeC w k).1) :
    Transit.next w k clock r =
      .ok ⟨{ r with time_attr := some (clock.timeC w k).1 }, none,
           (clock.timeC w k).1, (clock.timeC w k).2⟩ := by
  simp [Transit.next, hw, not_le.mpr h, Bind.bind, Except.bind]

/-- Inside its window with an unexhausted cursor, `Sweep.__next__` emits
the cursor element and advances the cursor by one. -/
theorem sweep_next_advance (w : ℕ → ℚ) (k : ℕ) (clock : Clock) (r : RoutineState)
    (start : ℚ) (stop : Option ℚ) (l : List ℚ) (i : ℕ)
    (hw : Sweep.window r.times = .ok (start, stop))
    (hvi : r.values_iter = some (l, i)) (hlen : i < l.length)
    (hin : inWindow (clock.timeC w k).1 start stop = true) :
    Sweep.next w k clock r =
      .ok ⟨{ r with values_iter := some (l, i + 1) }, some (l.get ⟨i, hlen⟩),
           (clock.timeC w k).1, (clock.timeC w k).2⟩ := by
  simp [Sweep.next, hw, hvi, hin, hlen, Bind.bind, Except.bind]

/-- Inside its window with an exhausted cursor, `Sweep.__next__` rebuilds
the iterator from `self.values` and emits the first element again (the
cyclic wrap-around). -/
theorem Sweep.next_wrap (w : ℕ → ℚ) (k : ℕ) (clock : Clock) (r : RoutineState)
    (start : ℚ) (stop : Option ℚ) (l : List ℚ) (i : ℕ) (x : ℚ) (xs : List ℚ)
    (hw : Sweep.window r.times = .ok (start, stop))
    (hvi : r.values_iter = some (l, i)) (hlen : l.length ≤ i)
    (hv : r.values = .list (x :: xs))
    (hin : inWindow (clock.timeC w k).1 start stop = true) :
    Sweep.next w k clock r =
      .ok ⟨{ r with values_iter := some (x :: xs, 1) }, some x,
           (clock.timeC w k).1, (clock.timeC w k).2⟩ := by
  simp [Sweep.next, hw, hvi, hin, not_lt.mpr hlen, hv, Bind.bind, Except.bind]

/-- Before its cutoff with an unexhausted cursor, `Transit.__next__` emits
the cursor element and advances the cursor by one. -/
theorem transit_next_advance (w : ℕ → ℚ) (k : ℕ) (clock : Clock) (r : RoutineState)
    (stop : ℚ) (l : List ℚ) (i : ℕ)
    (hw : Transit.window r.times = .ok stop)
    (hvi : r.values_iter = some (l, i)) (hlen : i < l.length)
    (hle : (clock.timeC w k).1 ≤ stop) :
    Transit.next w k clock r =
      .ok ⟨{ r with time_attr := some (clock.timeC w k).1, values_iter := some (l, i + 1) },
           some (l.get ⟨i, hlen⟩), (clock.timeC w k).1, (clock.timeC w k).2⟩ := by
  simp [Transit.next, hw, hvi, hlen, hle, Bind.bind, Except.bind]

/-- Before its cutoff with an exhausted cursor, `Transit.__next__` emits
`None` and never resets the cursor. -/
theorem transit_next_exhausted (w : ℕ → ℚ) (k : ℕ) (clock : Clock) (r : RoutineState)
    (stop : ℚ) (l : List ℚ) (i : ℕ)
    (hw : Transit.window r.times = .ok stop)
    (hvi : r.values_iter = some (l, i)) (hlen : l.length ≤ i)
    (hle : (clock.timeC w k).1 ≤ stop) :
    Transit.next w k clock r =
      .ok ⟨{ r with time_attr := some (clock.timeC w k).1 }, none,
           (clock.timeC w k).1, (clock.timeC w k).2⟩ := by
  simp [Transit.next, hw, hvi, not_lt.mpr hlen, hle, Bind.bind, Except.bind]

/-- With resolvable window and value, `Hold.__next__` emits the held value
exactly when the elapsed reading lies in the window. -/
theorem hold_next_eval (w : ℕ → ℚ) (k : ℕ) (clock : Clock) (r : RoutineState)
    (start : ℚ) (stop : Option ℚ) (v : ℚ)
    (hw : Hold.window r.times = .ok (start, stop))
    (hv : Hold.value r.values = .ok v) :
    Hold.next w k clock r =
      .ok ⟨r, if inWindow (clock.timeC w k).1 start stop then some v else none,
           (clock.timeC w k).1, (clock.timeC w k).2⟩ := by
  simp only [Hold.next, hw, hv, Bind.bind, Except.bind]
  split <;> rfl

/-- The time-conversion loop is the identity on bare numbers. -/
theorem convertTimes_num (ts : List ℚ) : convertTimes (ts.map .num) = .ok ts := by
  induction ts with
  | nil => rfl
  | cons x r ih => simp [convertTimes, convert_time, ih, Bind.bind, Except.bind]

/-- A time list of three or more bounds makes the window resolution of
`Hold.__next__` raise `IndexError`. -/
theorem Hold.window_long (ts : List ℚ) (h : 3 ≤ ts.length) :
    Hold.window (.list ts) =
      .error "IndexError: The times argument must be either a 1- or 2- element list, or a number!" := by
  match ts with
  | [] => exact absurd h (by simp)
  | [a] => exact absurd h (by simp)
  | [a, b] => exact absurd h (by simp)
  | a :: b :: c :: rest => rfl

/-- A successful `Hold.__next__` observes exactly the clock reading of its
single `clock.time()` call. -/
theorem hold_next_elapsed (w : ℕ → ℚ) (k : ℕ) (clock : Clock) (r : RoutineState)
    (o : StepOut) (h : Hold.next w k clock r = .ok o) :
    o.elapsed = (clock.timeC w k).1 ∧ o.k = (clock.timeC w k).2 := by
  unfold Hold.next at h
  simp only [Bind.bind, Except.bind] at h
  repeat' split at h
  all_goals first
    | (cases h; exact ⟨rfl, rfl⟩)
    | (exact absurd h (by simp))

/-- A successful `Ramp.__next__` observes exactly the clock reading of its
single `clock.time()` call. -/
theorem ramp_next_elapsed (w : ℕ → ℚ) (k : ℕ) (clock : Clock) (r : RoutineState)
    (o : StepOut) (h : Ramp.next w k clock r = .ok o) :
    o.elapsed = (clock.timeC w k).1 ∧ o.k = (clock.timeC w k).2 := by
  unfold Ramp.next at h
  simp only [Bind.bind, Except.bind] at h
  repeat' split at h
  all_goals first
    | (cases h; exact ⟨rfl, rfl⟩)
    | (exact absurd h (by simp))

/-- A successful `Sweep.__next__` observes exactly the clock reading of
its single `clock.time()` call. -/
theorem sweep_next_elapsed (w : ℕ → ℚ) (k : ℕ) (clock : Clock) (r : RoutineState)
    (o : StepOut) (h : Sweep.next w k clock r = .ok o) :
    o.elapsed = (clock.timeC w k).1 ∧ o.k = (clock.timeC w k).2 := by
  unfold Sweep.next at h
  simp only [Bind.bind, Except.bind] at h
  repeat' split at h
  all_goals first
    | (cases h; exact ⟨rfl, rfl⟩)
    | (exact absurd h (by simp))

/-- A successful `Transit.__next__` observes exactly the clock reading of
its single `clock.time()` call. -/
theorem transit_next_elapsed (w : ℕ → ℚ) (k : ℕ) (clock : Clock) (r : RoutineState)
    (o : StepOut) (h : Transit.next w k clock r = .ok o) :
    o.elapsed = (clock.timeC w k).1 ∧ o.k = (clock.timeC w k).2 := by
  unfold Transit.next at h
  simp only [Bind.bind, Except.bind] at h
  repeat' split at h
  all_goals first
    | (cases h; exact ⟨rfl, rfl⟩)
    | (exact absurd h (by simp))

/-- Every routine kind observes exactly the clock reading of its single
`clock.time()` call. -/
theorem routine_next_elapsed (kind : RKind) (w : ℕ → ℚ) (k : ℕ) (clock : Clock)
    (r : RoutineState) (o : StepOut) (h : Routine.next kind w k clock r = .ok o) :
    o.elapsed = (clock.timeC w k).1 ∧ o.k = (clock.timeC w k).2 := by
  cases kind
  case hold => exact hold_next_elapsed w k clock r o h
  case ramp => exact ramp_next_elapsed w k clock r o h
  case sweep => exact sweep_next_elapsed w k clock r o h
  case transit => exact transit_next_elapsed w k clock r o h

/-- If the clock reads the same value at every wall instant of the trace,
every elapsed reading recorded by the schedule step loop equals that
value. -/
theorem Schedule.stepAux_elapsed (w : ℕ → ℚ) (clock : Clock) (c0 : ℚ)
    (hw : ∀ i, clock.timeAt (w i) = c0) :
    ∀ (rs : List (String × String × RKind × RoutineState)) (k : ℕ)
      (acc : List (String × Option ℚ)) (els : List ℚ)
      (res : List (String × String × RKind × RoutineState) × List (String × Option ℚ) × List ℚ × ℕ),
      Schedule.stepAux w clock rs k acc els = .ok res →
      (∀ x ∈ els, x = c0) → ∀ x ∈ res.2.2.1, x = c0 := by
  intro rs
  induction rs with
  | nil =>
      intro k acc els res h hels
      unfold Schedule.stepAux at h
      cases h
      simpa using hels
  | cons hd tl ih =>
      obtain ⟨name, var, kind, r⟩ := hd
      intro k acc els res h hels
      unfold Schedule.stepAux at h
      simp only [Bind.bind, Except.bind] at h
      cases ho : Routine.next kind w k clock r with
      | error e => rw [ho] at h; exact absurd h (by simp)
      | ok o =>
          simp only [ho] at h
          cases hrec : Schedule.stepAux w clock tl o.k
              (updateAssoc acc var o.value) (els ++ [o.elapsed]) with
          | error e => simp [hrec] at h
          | ok res2 =>
              simp only [hrec] at h
              cases h
              have hels2 : ∀ x ∈ els ++ [o.elapsed], x = c0 := by
                intro x hx
                rcases List.mem_append.mp hx with hx | hx
                · exact hels x hx
                · have hx2 : x = o.elapsed := by simpa using hx
                  have he := (routine_next_elapsed kind w k clock r o ho).1
                  rw [hx2, he, Clock.timeC_fst]
                  exact hw k
              exact ih o.k _ _ res2 hrec hels2

/-- Saving never touches the `finished` flag. -/
theorem Experiment.save_finished (w : ℕ → ℚ) (k : ℕ) (s : ExpState) (b : Bool) :
    (Experiment.save w k s b).1.finished = s.finished := by
  unfold Experiment.save
  dsimp only
  split <;> rfl

/-- Saving never touches the `running` flag. -/
theorem Experiment.save_running (w : ℕ → ℚ) (k : ℕ) (s : ExpState) (b : Bool) :
    (Experiment.save w k s b).1.running = s.running := by
  unfold Experiment.save
  dsimp only
  split <;> rfl

/-- Saving never touches the follow-up list. -/
theorem Experiment.save_followup (w : ℕ → ℚ) (k : ℕ) (s : ExpState) (b : Bool) :
    (Experiment.save w k s b).1.followup = s.followup := by
  unfold Experiment.save
  dsimp only
  split <;> rfl

/-- Saving never touches the instrument view (in particular the alarm
flags). -/
theorem Experiment.save_instruments (w : ℕ → ℚ) (k : ℕ) (s : ExpState) (b : Bool) :
    (Experiment.save w k s b).1.instruments = s.instruments := by
  unfold Experiment.save
  dsimp only
  split <;> rfl

/-- A forced save always flushes exactly once. -/
theorem Experiment.save_forced_effects (w : ℕ → ℚ) (k : ℕ) (s : ExpState) :
    (Experiment.save w k s true).2.2 = [Effect.saveCsv] := by
  unfold Experiment.save
  dsimp only
  simp

/-- Once the termination flag entering the alarm loop is true, it stays
true. -/
theorem alarmFold_snd_true (l : List (String × Alarm)) (fu : List (Option String)) :
    (alarmFold l fu true).2 = true := by
  induction l generalizing fu with
  | nil => rfl
  | cons hd tl ih =>
      obtain ⟨n, a⟩ := hd
      unfold alarmFold
      split
      · exact ih _
      · exact ih _

/-- The alarm loop only prepends to the follow-up list. -/
theorem alarmFold_fu_mem (l : List (String × Alarm)) (fu : List (Option String))
    (fin : Bool) (x : Option String) (hx : x ∈ fu) : x ∈ (alarmFold l fu fin).1 := by
  induction l generalizing fu fin with
  | nil => exact hx
  | cons hd tl ih =>
      obtain ⟨n, a⟩ := hd
      unfold alarmFold
      split
      · exact ih _ _ (List.mem_cons_of_mem _ hx)
      · exact ih _ _ hx

/-- A triggered alarm anywhere in the list flags termination and records
its protocol in the follow-up list. -/
theorem alarmFold_mem (l : List (String × Alarm)) (fu : List (Option String))
    (fin : Bool) (name : String) (a : Alarm)
    (hmem : (name, a) ∈ l) (htrig : a.triggered = true) :
    (alarmFold l fu fin).2 = true ∧ some a.protocol ∈ (alarmFold l fu fin).1 := by
  induction l generalizing fu fin with
  | nil => cases hmem
  | cons hd tl ih =>
      obtain ⟨n2, a2⟩ := hd
      rcases List.mem_cons.mp hmem with heq | hmem2
      · have h1 : n2 = name := ((Prod.mk.injEq _ _ _ _).mp heq.symm).1
        have h2 : a2 = a := ((Prod.mk.injEq _ _ _ _).mp heq.symm).2
        subst h1
        subst h2
        unfold alarmFold
        rw [htrig]
        simp only [if_true]
        exact ⟨alarmFold_snd_true _ _,
          alarmFold_fu_mem _ _ _ _ (List.mem_cons_self _ _)⟩
      · unfold alarmFold
        split
        · exact ih _ _ hmem2
        · exact ih _ _ hmem2

/-- A running clock advances the wall-trace counter by one when read. -/
theorem Clock.timeC_snd_running (c : Clock) (w : ℕ → ℚ) (k : ℕ)
    (h : truthy c.stop_time = false) : (c.timeC w k).2 = k + 1 := by
  unfold Clock.timeC
  rw [h]
  simp

/-- A step request on a finished experiment raises `StopIteration`,
clears `running` and keeps `finished` set. -/
theorem Experiment.next_of_finished (w : ℕ → ℚ) (k : ℕ) (env : Env) (s : ExpState)
    (hf : s.finished = true) :
    (Experiment.next w k env s).2.2.2 = .ok .stop ∧
    (Experiment.next w k env s).1.running = false ∧
    (Experiment.next w k env s).1.finished = true := by
  unfold Experiment.next
  simp [hf, Experiment.save_running, Experiment.save_finished]

/-- When the schedule clock reading exceeds the configured duration, the
step flags `finished`. -/
theorem Experiment.next_finished_of_duration (w : ℕ → ℚ) (k : ℕ) (env : Env)
    (s : ExpState) (d : ℚ)
    (hf : s.finished = false) (hr : s.running = true) (hd : s.duration = .num d)
    (ht : d < (s.schedule.clock.timeC w k).1) :
    (Experiment.next w k env s).1.finished = true := by
  unfold Experiment.next
  simp only [hf, hr, hd, convert_time, Bool.false_eq_true, if_false, if_true]
  rw [if_pos ht]
  repeat' split
  all_goals simp [alarmFold_snd_true, Experiment.save_finished]

/-- A latched alarm flags `finished` and records its protocol in the
follow-up list. -/
theorem Experiment.next_finished_of_alarm (w : ℕ → ℚ) (k : ℕ) (env : Env)
    (s : ExpState) (d : ℚ) (name : String) (a : Alarm)
    (hf : s.finished = false) (hr : s.running = true) (hd : s.duration = .num d)
    (hmem : (name, a) ∈ s.instruments.alarms) (htrig : a.triggered = true) :
    (Experiment.next w k env s).1.finished = true ∧
    some a.protocol ∈ (Experiment.next w k env s).1.followup := by
  unfold Experiment.next
  simp only [hf, hr, hd, convert_time, Bool.false_eq_true, if_false, if_true]
  repeat' split
  all_goals
    refine ⟨?_, ?_⟩
  all_goals
    simp [Experiment.save_finished, Experiment.save_followup]
  all_goals
    first
      | exact (alarmFold_mem _ _ _ _ _ hmem htrig).1
      | exact (alarmFold_mem _ _ _ _ _ hmem htrig).2

/-- A non-finished step whose schedule advance and instrument apply both
succeed returns a snapshot value, whatever the termination flags decided
earlier in the same step. -/
theorem Experiment.next_value_of_schedule_ok (w : ℕ → ℚ) (k : ℕ) (env : Env)
    (s : ExpState) (d : ℚ) (res : Schedule × List (String × Option ℚ) × List ℚ × ℕ)
    (hf : s.finished = false) (hr : s.running = true) (hd : s.duration = .num d)
    (hck : truthy s.schedule.clock.stop_time = false)
    (henv : env.applyFails = false)
    (hsn : Schedule.next w (k + 3) s.schedule = .ok res) :
    ∃ snap, (Experiment.next w k env s).2.2.2 = .ok (.value snap) := by
  have h1 : ∀ j, (s.schedule.clock.timeC w j).2 = j + 1 :=
    fun j => Clock.timeC_snd_running _ _ _ hck
  have hsn2 : Schedule.next w (k + 1 + 1 + 1) s.schedule = .ok res := by
    have he : k + 1 + 1 + 1 = k + 3 := by omega
    rw [he]
    exact hsn
  unfold Experiment.next
  simp only [hf, hr, hd, convert_time, Bool.false_eq_true, if_false, if_true, henv, h1]
  repeat' split
  all_goals simp_all [InstrumentSet.read]

/-- An exception thrown by the instrument apply propagates as the outcome
of the step and no terminal-transition effect (save, clock stop,
disconnect) is performed in that step. -/
theorem Experiment.next_error_no_cleanup (w : ℕ → ℚ) (k : ℕ) (env : Env)
    (s : ExpState) (d : ℚ) (res : Schedule × List (String × Option ℚ) × List ℚ × ℕ)
    (hf : s.finished = false) (hr : s.running = true) (hd : s.duration = .num d)
    (hck : truthy s.schedule.clock.stop_time = false)
    (henv : env.applyFails = true)
    (hsn : Schedule.next w (k + 3) s.schedule = .ok res) :
    (Experiment.next w k env s).2.2.2 = .error "InstrumentError: apply failed" ∧
    Effect.clockStop ∉ (Experiment.next w k env s).2.2.1 ∧
    Effect.disconnect ∉ (Experiment.next w k env s).2.2.1 ∧
    Effect.saveCsv ∉ (Experiment.next w k env s).2.2.1 := by
  have h1 : ∀ j, (s.schedule.clock.timeC w j).2 = j + 1 :=
    fun j => Clock.timeC_snd_running _ _ _ hck
  have hsn2 : Schedule.next w (k + 1 + 1 + 1) s.schedule = .ok res := by
    have he : k + 1 + 1 + 1 = k + 3 := by omega
    rw [he]
    exact hsn
  unfold Experiment.next
  simp only [hf, hr, hd, convert_time, Bool.false_eq_true, if_false, if_true, henv, h1]
  repeat' split
  all_goals simp_all

/-- The step requested on a finished experiment performs exactly the
terminal transition: forced save, schedule clock stop, disconnect. -/
theorem Experiment.next_finished_effects (w : ℕ → ℚ) (k : ℕ) (env : Env)
    (s : ExpState) (hf : s.finished = true) :
    (Experiment.next w k env s).2.2.1 =
      [Effect.saveCsv, Effect.clockStop, Effect.disconnect] := by
  unfold Experiment.next
  simp [hf, Experiment.save_forced_effects]

/-- Zero driver steps change nothing. -/
theorem Experiment.run_zero (w : ℕ → ℚ) (env : Env) (p : ℕ × ExpState) :
    Experiment.run w env 0 p = p := rfl

/-- Unfolding of one driver step inside a run. -/
theorem Experiment.run_succ (w : ℕ → ℚ) (env : Env) (n k : ℕ) (s : ExpState) :
    Experiment.run w env (n + 1) (k, s) =
      Experiment.run w env n
        ((Experiment.next w k env s).2.1, (Experiment.next w k env s).1) := rfl

/-- Once finished, every later state of the driver loop stays finished
and never re-enters the running state. -/
theorem Experiment.run_stays_finished (w : ℕ → ℚ) (env : Env) :
    ∀ (n k : ℕ) (s : ExpState), s.finished = true →
      (Experiment.run w env (n + 1) (k, s)).2.finished = true ∧
      (Experiment.run w env (n + 1) (k, s)).2.running = false := by
  intro n
  induction n with
  | zero =>
      intro k s hf
      have h := Experiment.next_of_finished w k env s hf
      rw [Experiment.run_succ, Experiment.run_zero]
      exact ⟨h.2.2, h.2.1⟩
  | succ m ih =>
      intro k s hf
      have h := Experiment.next_of_finished w k env s hf
      rw [Experiment.run_succ]
      exact ih _ _ h.2.2

/-! Claim theorems. -/

/-- C5: for every sequence of pause and resume calls on a Clock, pausing
when already paused is a no-op (stoppage is never double-counted),
resuming when not paused is a no-op, the reading is frozen while paused,
and for a trace of positive wall instants that leaves the clock running,
the final reading equals wall-clock time since start minus the sum of all
paused intervals. -/
theorem C5_clock_pause_resume :
    (∀ (c : Clock) (now : ℚ), truthy c.stop_time = true → c.stopAt now = c) ∧
    (∀ (c : Clock) (now : ℚ), truthy c.stop_time = false → c.resumeAt now = c) ∧
    (∀ (c : Clock) (n1 n2 : ℚ), truthy c.stop_time = true → c.timeAt n1 = c.timeAt n2) ∧
    (∀ (t0 now : ℚ) (tr : List (Bool × ℚ)), (∀ e ∈ tr, 0 < e.2) →
      specPausedAfter none tr = none →
      ((Clock.started t0).runTrace tr).timeAt now = now - t0 - specPausedSum none tr) := by
  refine ⟨?_, ?_, ?_, ?_⟩
  · intro c now h
    simp [Clock.stopAt, h]
  · intro c now h
    simp [Clock.resumeAt, h]
  · intro c n1 n2 h
    simp [Clock.timeAt, h]
  · intro t0 now tr htr hafter
    rw [Clock.runTrace_eq tr (Clock.started t0) (by intro u hu; cases hu) htr]
    simp only [Clock.started] at hafter ⊢
    rw [hafter]
    simp [Clock.timeAt, truthy]

/-- Witness for C5 at a concrete trace: pause at 2, resume at 5, read at
10 gives 7; the degenerate pause/resume calls are no-ops; a paused clock
reads the same at any wall instant. -/
theorem C5_witness :
    ((Clock.started 0).runTrace [(true, 2), (false, 5)]).timeAt 10 = 7 ∧
    Clock.stopAt ⟨0, some 2, 0⟩ 5 = ⟨0, some 2, 0⟩ ∧
    Clock.resumeAt ⟨0, none, 0⟩ 5 = ⟨0, none, 0⟩ ∧
    Clock.timeAt ⟨0, some 2, 1⟩ 5 = Clock.timeAt ⟨0, some 2, 1⟩ 9 := by
  refine ⟨?_, ?_, ?_, ?_⟩
  · have h := C5_clock_pause_resume.2.2.2 0 10 [(true, 2), (false, 5)]
      (by intro e he; fin_cases he <;> norm_num) (by rfl)
    rw [h]
    norm_num [specPausedSum]
  · exact C5_clock_pause_resume.1 ⟨0, some 2, 0⟩ 5 (by decide)
  · exact C5_clock_pause_resume.2.1 ⟨0, none, 0⟩ 5 (by decide)
  · exact C5_clock_pause_resume.2.2.1 ⟨0, some 2, 1⟩ 5 9 (by decide)

/-- C1 counterexample: a running experiment with duration 10 whose
schedule clock reads 100 sets `finished` on that step but still produces
a snapshot value instead of stopping, refuting the claim that the loop
transitions to finished instead of producing a value. -/
theorem C1_counterexample :
    (Experiment.next w100 0 envOk c1exp).1.finished = true ∧
    (Experiment.next w100 0 envOk c1exp).2.2.2 =
      .ok (.value [("Total Time", 100), ("Schedule Time", 100)]) := by
  constructor <;>
    norm_num [Experiment.next, Experiment.save, alarmFold, Schedule.next, Schedule.stepAux,
      InstrumentSet.read, convert_time, geOpt, ltOpt, updateAssoc, updateAssocAll,
      Clock.timeC, Clock.started, Clock.stopC, truthy, w100, envOk, insNone, c1exp,
      Bind.bind, Except.bind]
  all_goals decide

/-- C1 amended: when elapsed schedule time exceeds the configured
duration, or any alarm is latched-triggered, the step sets the `finished`
flag (recording any alarm protocol in the follow-up list) but still
produces one more value; the next step request raises `StopIteration`,
clears `running`, and from then on the loop stays finished and never
re-enters the running state. -/
theorem C1_finished_transition :
    (∀ (w : ℕ → ℚ) (k : ℕ) (env : Env) (s : ExpState), s.finished = true →
        (Experiment.next w k env s).2.2.2 = .ok .stop ∧
        (Experiment.next w k env s).1.running = false ∧
        (Experiment.next w k env s).1.finished = true) ∧
    (∀ (w : ℕ → ℚ) (k : ℕ) (env : Env) (s : ExpState) (d : ℚ),
        s.finished = false → s.running = true → s.duration = .num d →
        d < (s.schedule.clock.timeC w k).1 →
        (Experiment.next w k env s).1.finished = true) ∧
    (∀ (w : ℕ → ℚ) (k : ℕ) (env : Env) (s : ExpState) (d : ℚ) (name : String) (a : Alarm),
        s.finished = false → s.running = true → s.duration = .num d →
        (name, a) ∈ s.instruments.alarms → a.triggered = true →
        (Experiment.next w k env s).1.finished = true ∧
        some a.protocol ∈ (Experiment.next w k env s).1.followup) ∧
    (∀ (w : ℕ → ℚ) (k : ℕ) (env : Env) (s : ExpState) (d : ℚ)
        (res : Schedule × List (String × Option ℚ) × List ℚ × ℕ),
        s.finished = false → s.running = true → s.duration = .num d →
        truthy s.schedule.clock.stop_time = false → env.applyFails = false →
        Schedule.next w (k + 3) s.schedule = .ok res →
        ∃ snap, (Experiment.next w k env s).2.2.2 = .ok (.value snap)) ∧
    (∀ (w : ℕ → ℚ) (env : Env) (n k : ℕ) (s : ExpState), s.finished = true →
        (Experiment.run w env (n + 1) (k, s)).2.finished = true ∧
        (Experiment.run w env (n + 1) (k, s)).2.running = false) := by
  refine ⟨Experiment.next_of_finished, Experiment.next_finished_of_duration,
    Experiment.next_finished_of_alarm, Experiment.next_value_of_schedule_ok, ?_⟩
  intro w env n k s hf
  exact Experiment.run_stays_finished w env n k s hf

/-- Witness for C1 amended: the concrete running experiment past its
duration flags finished yet still yields a value; one more step request
stops; two further step requests stay finished and not running. -/
theorem C1_witness :
    (Experiment.next w100 0 envOk { c1exp with finished := true }).2.2.2 = .ok .stop ∧
    (Experiment.next w100 0 envOk c1exp).1.finished = true ∧
    (∃ snap, (Experiment.next w100 0 envOk c1exp).2.2.2 = .ok (.value snap)) ∧
    (Experiment.run w100 envOk 2 (0, { c1exp with finished := true })).2.finished = true ∧
    (Experiment.run w100 envOk 2 (0, { c1exp with finished := true })).2.running = false := by
  refine ⟨?_, ?_, ?_, ?_, ?_⟩
  · exact (C1_finished_transition.1 w100 0 envOk { c1exp with finished := true } rfl).1
  · exact C1_finished_transition.2.1 w100 0 envOk c1exp 10 rfl rfl rfl
      (by norm_num [Clock.timeC, Clock.started, truthy, w100, c1exp])
  · exact C1_finished_transition.2.2.2.1 w100 0 envOk c1exp 10
      ({ clock := Clock.started 0, routines := [] }, [], [], 3) rfl rfl rfl rfl rfl
      (by norm_num [Schedule.next, Schedule.stepAux, c1exp, Bind.bind, Except.bind])
  · exact (C1_finished_transition.2.2.2.2 w100 envOk 1 0 { c1exp with finished := true } rfl).1
  · exact (C1_finished_transition.2.2.2.2 w100 envOk 1 0 { c1exp with finished := true } rfl).2

/-- C3: the driver loop calls `InstrumentSet.read` with no meter list,
which returns the measurements before `check_alarms` is reached, so even
a reading that satisfies the GREATER alarm condition leaves the
`triggered` flag false after the step, although `check_alarms` itself
would have latched it on the same readings: the driver loop never latches
alarms. -/
theorem C3_driver_loop_never_latches :
    (Experiment.next w10 0 c3env c3exp).1.instruments.alarms = [("A", c3alarm)] ∧
    (Experiment.next w10 0 c3env c3exp).2.2.2 =
      .ok (.value [("M", 5), ("Total Time", 10), ("Schedule Time", 10)]) ∧
    checkAlarms [("A", c3alarm)] [("M", 5)] =
      .ok [("A", { meter := "M", condition := "GREATER", threshold := 0, protocol := "bail",
                   triggered := true })] := by
  refine ⟨?_, ?_, ?_⟩ <;>
    norm_num [Experiment.next, Experiment.save, alarmFold, Schedule.next, Schedule.stepAux,
      InstrumentSet.read, checkAlarms, lookupAssoc, alarm_map, convert_time, geOpt, ltOpt,
      updateAssoc, updateAssocAll, Clock.timeC, Clock.started, Clock.stopC, truthy,
      w10, c3env, c3ins, c3alarm, c3exp, Bind.bind, Except.bind]
  all_goals decide

/-- C9 counterexample: when the instrument apply raises during a running
step, the exception propagates as the outcome, yet no effect at all is
performed in that step: no final save, no schedule clock stop, no
disconnect, and the experiment is not even marked finished — there is no
guaranteed cleanup path. -/
theorem C9_counterexample :
    (Experiment.next w10 0 envFail c1exp).2.2.2 = .error "InstrumentError: apply failed" ∧
    (Experiment.next w10 0 envFail c1exp).2.2.1 = [] ∧
    (Experiment.next w10 0 envFail c1exp).1.finished = false := by
  refine ⟨?_, ?_, ?_⟩ <;>
    norm_num [Experiment.next, Experiment.save, alarmFold, Schedule.next, Schedule.stepAux,
      InstrumentSet.read, convert_time, geOpt, ltOpt, updateAssoc, updateAssocAll,
      Clock.timeC, Clock.started, Clock.stopC, truthy, w10, envFail, insNone, c1exp,
      Bind.bind, Except.bind]

/-- C9 amended: an exception raised while stepping propagates out of the
driver loop as its outcome, but no terminal-transition action (final
persist, schedule clock stop, instrument disconnect) runs in that step;
the terminal transition runs exactly when a later step request finds the
`finished` flag set, in which case the step performs precisely the forced
save, the clock stop and the disconnect. -/
theorem C9_error_propagates_without_cleanup :
    (∀ (w : ℕ → ℚ) (k : ℕ) (env : Env) (s : ExpState) (d : ℚ)
        (res : Schedule × List (String × Option ℚ) × List ℚ × ℕ),
        s.finished = false → s.running = true → s.duration = .num d →
        truthy s.schedule.clock.stop_time = false → env.applyFails = true →
        Schedule.next w (k + 3) s.schedule = .ok res →
        (Experiment.next w k env s).2.2.2 = .error "InstrumentError: apply failed" ∧
        Effect.clockStop ∉ (Experiment.next w k env s).2.2.1 ∧
        Effect.disconnect ∉ (Experiment.next w k env s).2.2.1 ∧
        Effect.saveCsv ∉ (Experiment.next w k env s).2.2.1) ∧
    (∀ (w : ℕ → ℚ) (k : ℕ) (env : Env) (s : ExpState), s.finished = true →
        (Experiment.next w k env s).2.2.1 =
          [Effect.saveCsv, Effect.clockStop, Effect.disconnect] ∧
        (Experiment.next w k env s).2.2.2 = .ok .stop) := by
  constructor
  · exact Experiment.next_error_no_cleanup
  · intro w k env s hf
    exact ⟨Experiment.next_finished_effects w k env s hf,
      (Experiment.next_of_finished w k env s hf).1⟩

/-- Witness for C9 amended: the concrete failing apply leaves no cleanup
effect, and a finished experiment performs exactly the terminal
transition. -/
theorem C9_witness :
    (Experiment.next w10 0 envFail c1exp).2.2.2 = .error "InstrumentError: apply failed" ∧
    Effect.saveCsv ∉ (Experiment.next w10 0 envFail c1exp).2.2.1 ∧
    (Experiment.next w10 0 envOk { c1exp with finished := true }).2.2.1 =
      [Effect.saveCsv, Effect.clockStop, Effect.disconnect] := by
  have ha := C9_error_propagates_without_cleanup.1 w10 0 envFail c1exp 10
    ({ clock := Clock.started 0, routines := [] }, [], [], 3) rfl rfl rfl rfl rfl
    (by norm_num [Schedule.next, Schedule.stepAux, c1exp, Bind.bind, Except.bind])
  have hb := C9_error_propagates_without_cleanup.2 w10 0 envOk
    { c1exp with finished := true } rfl
  exact ⟨ha.1, ha.2.2.2, hb.1⟩

/-- C2 counterexample: in one `Schedule.__next__` call over two identical
Hold routines (window [0, 10], value 1) sharing one clock, a wall trace
that advances from 5 to 20 between the two internal `clock.time()` calls
makes the first routine see elapsed 5 (inside its window, emitting 1) and
the second see elapsed 20 (outside, emitting `None`): the two knobs of
one step observe different timestamps, refuting the claim. -/
theorem C2_counterexample :
    Schedule.next c2w 0 c2sch =
      .ok (c2sch, [("knob1", some 1), ("knob2", none)], [5, 20], 2) ∧
    (5 : ℚ) ≠ 20 := by
  constructor
  · norm_num [Schedule.next, Schedule.stepAux, Routine.next, Hold.next, Hold.window,
      Hold.value, c2sch, c2r, Routine.init, Clock.timeC, Clock.started, truthy, c2w,
      inWindow, updateAssoc, Bind.bind, Except.bind]
    decide
  · norm_num

/-- C2 amended: all routines of a schedule share the one schedule clock,
so their elapsed readings within one `Schedule.__next__` call can differ
only through wall-clock advance between their separate `clock.time()`
calls; when the wall clock does not advance during the call, every
routine observes the identical elapsed reading. -/
theorem C2_shared_clock_no_skew (w : ℕ → ℚ) (k : ℕ) (sch : Schedule)
    (res : Schedule × List (String × Option ℚ) × List ℚ × ℕ)
    (hw : ∀ i j, w i = w j)
    (h : Schedule.next w k sch = .ok res) :
    ∀ x ∈ res.2.2.1, x = sch.clock.timeAt (w k) := by
  unfold Schedule.next at h
  simp only [Bind.bind, Except.bind] at h
  cases hs : Schedule.stepAux w sch.clock sch.routines k [] [] with
  | error e => rw [hs] at h; exact absurd h (by simp)
  | ok r2 =>
      simp only [hs] at h
      cases h
      intro x hx
      have hconst : ∀ i, sch.clock.timeAt (w i) = sch.clock.timeAt (w k) := by
        intro i; rw [hw i k]
      exact Schedule.stepAux_elapsed w sch.clock (sch.clock.timeAt (w k)) hconst
        sch.routines k [] [] r2 hs (by intro y hy; cases hy) x hx

/-- Witness for C2 amended: with a frozen wall trace, both Hold routines
of the two-knob schedule observe the identical elapsed reading 1. -/
theorem C2_witness :
    (1 : ℚ) ∈ [(1 : ℚ), 1] ∧ (1 : ℚ) = c2sch.clock.timeAt (w1 0) := by
  constructor
  · simp
  · have hres : Schedule.next w1 0 c2sch =
        .ok (c2sch, [("knob1", some 1), ("knob2", some 1)], [1, 1], 2) := by
      norm_num [Schedule.next, Schedule.stepAux, Routine.next, Hold.next, Hold.window,
        Hold.value, c2sch, c2r, Routine.init, Clock.timeC, Clock.started, truthy, w1,
        inWindow, updateAssoc, Bind.bind, Except.bind]
      decide
    have h := C2_shared_clock_no_skew w1 0 c2sch
      (c2sch, [("knob1", some 1), ("knob2", some 1)], [1, 1], 2)
      (fun i j => rfl) hres
    exact h 1 (by simp)

/-- C4: for every routine variant with a resolvable window (and, where
the source resolves them before the window test, resolvable values), an
elapsed reading strictly before the window start or strictly after its
finite end makes the advance emit `None` (no change), never a stale or
zero value; for Transit any reading strictly past the single cutoff emits
`None`. -/
theorem C4_outside_window_no_change :
    (∀ (w : ℕ → ℚ) (k : ℕ) (clock : Clock) (r : RoutineState)
        (start : ℚ) (stop : Option ℚ) (v : ℚ),
        Hold.window r.times = .ok (start, stop) →
        Hold.value r.values = .ok v →
        ((clock.timeC w k).1 < start ∨ ∃ e, stop = some e ∧ e < (clock.timeC w k).1) →
        Hold.next w k clock r = .ok ⟨r, none, (clock.timeC w k).1, (clock.timeC w k).2⟩) ∧
    (∀ (w : ℕ → ℚ) (k : ℕ) (clock : Clock) (r : RoutineState)
        (start : ℚ) (stop : Option ℚ) (a b : ℚ),
        Ramp.window r.times = .ok (start, stop) →
        Ramp.valuePair r.values = .ok (a, b) →
        ((clock.timeC w k).1 < start ∨ ∃ e, stop = some e ∧ e < (clock.timeC w k).1) →
        Ramp.next w k clock r = .ok ⟨r, none, (clock.timeC w k).1, (clock.timeC w k).2⟩) ∧
    (∀ (w : ℕ → ℚ) (k : ℕ) (clock : Clock) (r : RoutineState)
        (start : ℚ) (stop : Option ℚ),
        Sweep.window r.times = .ok (start, stop) →
        ((clock.timeC w k).1 < start ∨ ∃ e, stop = some e ∧ e < (clock.timeC w k).1) →
        Sweep.next w k clock r = .ok ⟨r, none, (clock.timeC w k).1, (clock.timeC w k).2⟩) ∧
    (∀ (w : ℕ → ℚ) (k : ℕ) (clock : Clock) (r : RoutineState) (stop : ℚ),
        Transit.window r.times = .ok stop →
        stop < (clock.timeC w k).1 →
        Transit.next w k clock r =
          .ok ⟨{ r with time_attr := some (clock.timeC w k).1 }, none,
               (clock.timeC w k).1, (clock.timeC w k).2⟩) :=
  ⟨hold_next_outside, ramp_next_outside, sweep_next_outside, transit_next_outside⟩

/-- Witness for C4: the Hold routine of the spec example (window [5, 10],
value 3) at elapsed time 4 and at elapsed time 11, a Ramp, a Sweep and a
Transit likewise outside their windows, all emit `None`. -/
theorem C4_witness :
    Hold.next (fun _ => 4) 0 (Clock.started 0) (Routine.init (.list [5, 10]) (.num 3)) =
      .ok ⟨Routine.init (.list [5, 10]) (.num 3), none,
           ((Clock.started 0).timeC (fun _ => 4) 0).1, ((Clock.started 0).timeC (fun _ => 4) 0).2⟩ ∧
    Hold.next (fun _ => 11) 0 (Clock.started 0) (Routine.init (.list [5, 10]) (.num 3)) =
      .ok ⟨Routine.init (.list [5, 10]) (.num 3), none,
           ((Clock.started 0).timeC (fun _ => 11) 0).1, ((Clock.started 0).timeC (fun _ => 11) 0).2⟩ ∧
    Ramp.next (fun _ => 11) 0 (Clock.started 0) (Routine.init (.list [0, 10]) (.list [0, 100])) =
      .ok ⟨Routine.init (.list [0, 10]) (.list [0, 100]), none,
           ((Clock.started 0).timeC (fun _ => 11) 0).1, ((Clock.started 0).timeC (fun _ => 11) 0).2⟩ ∧
    Sweep.next (fun _ => 11) 0 (Clock.started 0) (Routine.init (.list [0, 10]) (.list [1, 2, 3])) =
      .ok ⟨Routine.init (.list [0, 10]) (.list [1, 2, 3]), none,
           ((Clock.started 0).timeC (fun _ => 11) 0).1, ((Clock.started 0).timeC (fun _ => 11) 0).2⟩ ∧
    Transit.next (fun _ => 11) 0 (Clock.started 0) (Routine.init (.list [5]) (.list [1, 2])) =
      .ok ⟨{ Routine.init (.list [5]) (.list [1, 2]) with
               time_attr := some ((Clock.started 0).timeC (fun _ => 11) 0).1 }, none,
           ((Clock.started 0).timeC (fun _ => 11) 0).1, ((Clock.started 0).timeC (fun _ => 11) 0).2⟩ := by
  refine ⟨?_, ?_, ?_, ?_, ?_⟩
  · exact C4_outside_window_no_change.1 (fun _ => 4) 0 (Clock.started 0)
      (Routine.init (.list [5, 10]) (.num 3)) 5 (some 10) 3 rfl rfl
      (Or.inl (by norm_num [Clock.timeC, Clock.started, truthy]))
  · exact C4_outside_window_no_change.1 (fun _ => 11) 0 (Clock.started 0)
      (Routine.init (.list [5, 10]) (.num 3)) 5 (some 10) 3 rfl rfl
      (Or.inr ⟨10, rfl, by norm_num [Clock.timeC, Clock.started, truthy]⟩)
  · exact C4_outside_window_no_change.2.1 (fun _ => 11) 0 (Clock.started 0)
      (Routine.init (.list [0, 10]) (.list [0, 100])) 0 (some 10) 0 100 rfl rfl
      (Or.inr ⟨10, rfl, by norm_num [Clock.timeC, Clock.started, truthy]⟩)
  · exact C4_outside_window_no_change.2.2.1 (fun _ => 11) 0 (Clock.started 0)
      (Routine.init (.list [0, 10]) (.list [1, 2, 3])) 0 (some 10) rfl
      (Or.inr ⟨10, rfl, by norm_num [Clock.timeC, Clock.started, truthy]⟩)
  · exact C4_outside_window_no_change.2.2.2 (fun _ => 11) 0 (Clock.started 0)
      (Routine.init (.list [5]) (.list [1, 2])) 5 rfl
      (by norm_num [Clock.timeC, Clock.started, truthy])

/-- C7: the Sweep/Transit cursor advances monotonically and is not reset
by leaving or re-entering the active window; Sweep restarts cyclically
from the first element upon exhaustion (in-window advances over [1, 2, 3]
yield 1, 2, 3, 1), while the Transit cursor never resets and Transit
emits `None` once its sequence is exhausted, its state unchanged (so
`None` forever). -/
theorem C7_cursor_monotone_wrap :
    (∀ (w : ℕ → ℚ) (k : ℕ) (clock : Clock) (r : RoutineState)
        (start : ℚ) (stop : Option ℚ),
        Sweep.window r.times = .ok (start, stop) →
        ((clock.timeC w k).1 < start ∨ ∃ e, stop = some e ∧ e < (clock.timeC w k).1) →
        Sweep.next w k clock r = .ok ⟨r, none, (clock.timeC w k).1, (clock.timeC w k).2⟩) ∧
    (∀ (w : ℕ → ℚ) (k : ℕ) (clock : Clock) (r : RoutineState)
        (start : ℚ) (stop : Option ℚ) (l : List ℚ) (i : ℕ)
        (hlen : i < l.length),
        Sweep.window r.times = .ok (start, stop) →
        r.values_iter = some (l, i) →
        inWindow (clock.timeC w k).1 start stop = true →
        Sweep.next w k clock r =
          .ok ⟨{ r with values_iter := some (l, i + 1) }, some (l.get ⟨i, hlen⟩),
               (clock.timeC w k).1, (clock.timeC w k).2⟩) ∧
    (∀ (w : ℕ → ℚ) (k : ℕ) (clock : Clock) (r : RoutineState)
        (start : ℚ) (stop : Option ℚ) (l : List ℚ) (i : ℕ) (x : ℚ) (xs : List ℚ),
        Sweep.window r.times = .ok (start, stop) →
        r.values_iter = some (l, i) → l.length ≤ i →
        r.values = .list (x :: xs) →
        inWindow (clock.timeC w k).1 start stop = true →
        Sweep.next w k clock r =
          .ok ⟨{ r with values_iter := some (x :: xs, 1) }, some x,
               (clock.timeC w k).1, (clock.timeC w k).2⟩) ∧
    (∀ (w : ℕ → ℚ) (k : ℕ) (clock : Clock) (r : RoutineState)
        (stop : ℚ) (l : List ℚ) (i : ℕ) (hlen : i < l.length),
        Transit.window r.times = .ok stop →
        r.values_iter = some (l, i) →
        (clock.timeC w k).1 ≤ stop →
        Transit.next w k clock r =
          .ok ⟨{ r with time_attr := some (clock.timeC w k).1, values_iter := some (l, i + 1) },
               some (l.get ⟨i, hlen⟩), (clock.timeC w k).1, (clock.timeC w k).2⟩) ∧
    (∀ (w : ℕ → ℚ) (k : ℕ) (clock : Clock) (r : RoutineState)
        (stop : ℚ) (l : List ℚ) (i : ℕ),
        Transit.window r.times = .ok stop →
        r.values_iter = some (l, i) → l.length ≤ i →
        (clock.timeC w k).1 ≤ stop →
        Transit.next w k clock r =
          .ok ⟨{ r with time_attr := some (clock.timeC w k).1 }, none,
               (clock.timeC w k).1, (clock.timeC w k).2⟩) ∧
    (Sweep.next w1 0 (Clock.started 0) c7r0 =
        .ok ⟨⟨.list [0], .list [1, 2, 3], some ([1, 2, 3], 1), none⟩, some 1, 1, 1⟩ ∧
      Sweep.next w1 1 (Clock.started 0) ⟨.list [0], .list [1, 2, 3], some ([1, 2, 3], 1), none⟩ =
        .ok ⟨⟨.list [0], .list [1, 2, 3], some ([1, 2, 3], 2), none⟩, some 2, 1, 2⟩ ∧
      Sweep.next w1 2 (Clock.started 0) ⟨.list [0], .list [1, 2, 3], some ([1, 2, 3], 2), none⟩ =
        .ok ⟨⟨.list [0], .list [1, 2, 3], some ([1, 2, 3], 3), none⟩, some 3, 1, 3⟩ ∧
      Sweep.next w1 3 (Clock.started 0) ⟨.list [0], .list [1, 2, 3], some ([1, 2, 3], 3), none⟩ =
        .ok ⟨⟨.list [0], .list [1, 2, 3], some ([1, 2, 3], 1), none⟩, some 1, 1, 4⟩) := by
  refine ⟨sweep_next_outside, ?_, ?_, ?_, transit_next_exhausted, ?_, ?_, ?_, ?_⟩
  · intro w k clock r start stop l i hlen hw hvi hin
    exact sweep_next_advance w k clock r start stop l i hw hvi hlen hin
  · intro w k clock r start stop l i x xs hw hvi hlen hv hin
    exact Sweep.next_wrap w k clock r start stop l i x xs hw hvi hlen hv hin
  · intro w k clock r stop l i hlen hw hvi hle
    exact transit_next_advance w k clock r stop l i hw hvi hlen hle
  all_goals
    norm_num [Sweep.next, Sweep.window, Ramp.window, c7r0, Routine.init, Clock.timeC,
      Clock.started, truthy, w1, inWindow, Bind.bind, Except.bind]

/-- Witness for C7: a Sweep leaves the window with its cursor at 1, emits
`None` outside, and on re-entry resumes from cursor 1 (no reset); a
Transit whose two values are exhausted emits `None` with its cursor
intact. -/
theorem C7_witness :
    Sweep.next (fun _ => 11) 0 (Clock.started 0)
        ⟨.list [0, 10], .list [1, 2, 3], some ([1, 2, 3], 1), none⟩ =
      .ok ⟨⟨.list [0, 10], .list [1, 2, 3], some ([1, 2, 3], 1), none⟩, none,
           ((Clock.started 0).timeC (fun _ => 11) 0).1, ((Clock.started 0).timeC (fun _ => 11) 0).2⟩ ∧
    Sweep.next (fun _ => 5) 0 (Clock.started 0)
        ⟨.list [0, 10], .list [1, 2, 3], some ([1, 2, 3], 1), none⟩ =
      .ok ⟨⟨.list [0, 10], .list [1, 2, 3], some ([1, 2, 3], 2), none⟩,
           some 2, ((Clock.started 0).timeC (fun _ => 5) 0).1, ((Clock.started 0).timeC (fun _ => 5) 0).2⟩ ∧
    Transit.next (fun _ => 4) 0 (Clock.started 0)
        ⟨.list [5], .list [1, 2], some ([1, 2], 2), none⟩ =
      .ok ⟨⟨.list [5], .list [1, 2], some ([1, 2], 2),
              some ((Clock.started 0).timeC (fun _ => 4) 0).1⟩, none,
           ((Clock.started 0).timeC (fun _ => 4) 0).1, ((Clock.started 0).timeC (fun _ => 4) 0).2⟩ := by
  refine ⟨?_, ?_, ?_⟩
  · exact C7_cursor_monotone_wrap.1 (fun _ => 11) 0 (Clock.started 0)
      ⟨.list [0, 10], .list [1, 2, 3], some ([1, 2, 3], 1), none⟩ 0 (some 10) rfl
      (Or.inr ⟨10, rfl, by norm_num [Clock.timeC, Clock.started, truthy]⟩)
  · have h := C7_cursor_monotone_wrap.2.1 (fun _ => 5) 0 (Clock.started 0)
      ⟨.list [0, 10], .list [1, 2, 3], some ([1, 2, 3], 1), none⟩ 0 (some 10)
      [1, 2, 3] 1 (by norm_num) rfl rfl
      (by norm_num [inWindow, Clock.timeC, Clock.started, truthy])
    exact h
  · exact C7_cursor_monotone_wrap.2.2.2.2.1 (fun _ => 4) 0 (Clock.started 0)
      ⟨.list [5], .list [1, 2], some ([1, 2], 2), none⟩ 5 [1, 2] 2 rfl rfl
      (by norm_num) (by norm_num [Clock.timeC, Clock.started, truthy])

/-- C10: Hold and Transit accept a bare number as the `times` argument
without error (via the caught `TypeError` branch): Hold reads it as the
window start with the end at infinity, Transit as the single cutoff
time. -/
theorem C10_bare_number_times :
    (∀ (x v : ℚ) (w : ℕ → ℚ) (k : ℕ) (c : Clock) (r : RoutineState),
        r.times = .num x → r.values = .num v →
        Hold.next w k c r =
          .ok ⟨r, if x ≤ (c.timeC w k).1 then some v else none,
               (c.timeC w k).1, (c.timeC w k).2⟩) ∧
    (∀ (x : ℚ) (w : ℕ → ℚ) (k : ℕ) (c : Clock) (r : RoutineState)
        (l : List ℚ) (i : ℕ) (hlen : i < l.length),
        r.times = .num x → r.values_iter = some (l, i) →
        (c.timeC w k).1 ≤ x →
        Transit.next w k c r =
          .ok ⟨{ r with time_attr := some (c.timeC w k).1, values_iter := some (l, i + 1) },
               some (l.get ⟨i, hlen⟩), (c.timeC w k).1, (c.timeC w k).2⟩) ∧
    (∀ (x : ℚ) (w : ℕ → ℚ) (k : ℕ) (c : Clock) (r : RoutineState),
        r.times = .num x → x < (c.timeC w k).1 →
        Transit.next w k c r =
          .ok ⟨{ r with time_attr := some (c.timeC w k).1 }, none,
               (c.timeC w k).1, (c.timeC w k).2⟩) := by
  refine ⟨?_, ?_, ?_⟩
  · intro x v w k c r ht hv
    have h := hold_next_eval w k c r x none v (by rw [ht]; rfl) (by rw [hv]; rfl)
    rw [h]
    simp [inWindow]
  · intro x w k c r l i hlen ht hvi hle
    exact transit_next_advance w k c r x l i (by rw [ht]; rfl) hvi hlen hle
  · intro x w k c r ht hlt
    exact transit_next_outside w k c r x (by rw [ht]; rfl) hlt

/-- Witness for C10: a Hold with bare start 7 emits its value at elapsed
100 (open-ended window) and `None` at elapsed 4; a Transit with bare
cutoff 5 advances its cursor at elapsed 4 and emits `None` at elapsed
6. -/
theorem C10_witness :
    Hold.next (fun _ => 100) 0 (Clock.started 0) (Routine.init (.num 7) (.num 3)) =
      .ok ⟨Routine.init (.num 7) (.num 3),
           if (7 : ℚ) ≤ ((Clock.started 0).timeC (fun _ => 100) 0).1 then some 3 else none,
           ((Clock.started 0).timeC (fun _ => 100) 0).1, ((Clock.started 0).timeC (fun _ => 100) 0).2⟩ ∧
    Transit.next (fun _ => 4) 0 (Clock.started 0) (Routine.init (.num 5) (.list [1, 2])) =
      .ok ⟨{ Routine.init (.num 5) (.list [1, 2]) with
               time_attr := some ((Clock.started 0).timeC (fun _ => 4) 0).1,
               values_iter := some ([1, 2], 1) },
           some 1, ((Clock.started 0).timeC (fun _ => 4) 0).1, ((Clock.started 0).timeC (fun _ => 4) 0).2⟩ ∧
    Transit.next (fun _ => 6) 0 (Clock.started 0) (Routine.init (.num 5) (.list [1, 2])) =
      .ok ⟨{ Routine.init (.num 5) (.list [1, 2]) with
               time_attr := some ((Clock.started 0).timeC (fun _ => 6) 0).1 },
           none, ((Clock.started 0).timeC (fun _ => 6) 0).1, ((Clock.started 0).timeC (fun _ => 6) 0).2⟩ := by
  refine ⟨?_, ?_, ?_⟩
  · exact C10_bare_number_times.1 7 3 (fun _ => 100) 0 (Clock.started 0)
      (Routine.init (.num 7) (.num 3)) rfl rfl
  · exact C10_bare_number_times.2.1 5 (fun _ => 4) 0 (Clock.started 0)
      (Routine.init (.num 5) (.list [1, 2])) [1, 2] 0 (by norm_num) rfl rfl
      (by norm_num [Clock.timeC, Clock.started, truthy])
  · exact C10_bare_number_times.2.2 5 (fun _ => 6) 0 (Clock.started 0)
      (Routine.init (.num 5) (.list [1, 2])) rfl
      (by norm_num [Clock.timeC, Clock.started, truthy])

/-- C6 counterexample: `Routine.__init__` stores a 3-element time window
and a non-sequence Sweep value spec without raising anything (Schedule
build succeeds too); the `IndexError` for the malformed window and the
`AttributeError` for the missing values iterator surface only at advance
time, refuting the claim that such malformed specs error at
construction/build time. -/
theorem C6_counterexample :
    Routine.init (.list [1, 2, 3]) (.num 3) = ⟨.list [1, 2, 3], .num 3, none, none⟩ ∧
    Hold.next w1 0 (Clock.started 0) (Routine.init (.list [1, 2, 3]) (.num 3)) =
      .error "IndexError: The times argument must be either a 1- or 2- element list, or a number!" ∧
    Schedule.add { clock := Clock.started 0, routines := [] }
        [("r", { routine := "Hold", var := "knob", values := .num 3,
                 times := [.num 1, .num 2, .num 3] })] =
      .ok { clock := Clock.started 0,
            routines := [("r", "knob", .hold, ⟨.list [1, 2, 3], .num 3, none, none⟩)] } ∧
    Routine.init (.list [0, 10]) (.num 5) = ⟨.list [0, 10], .num 5, none, none⟩ ∧
    Sweep.next w1 0 (Clock.started 0) (Routine.init (.list [0, 10]) (.num 5)) =
      .error "AttributeError: values_iter is not set" := by
  refine ⟨rfl, rfl, rfl, rfl, ?_⟩
  norm_num [Sweep.next, Sweep.window, Ramp.window, Routine.init, Clock.timeC,
    Clock.started, truthy, w1, inWindow, Bind.bind, Except.bind]

/-- C6 amended: malformed routine specs raise nothing at
construction/build time; `Schedule.add` registers them untouched, a
window of three or more bounds raises `IndexError` at advance time, and a
non-sequence Sweep/Transit value spec leaves `values_iter` unset at
construction and raises `AttributeError` at advance time. -/
theorem C6_amended_deferred_errors :
    (∀ (sch : Schedule) (name kindStr var : String) (vals : PyVal) (ts : List ℚ) (kind : RKind),
        kindOf kindStr = some kind →
        Schedule.add sch
            [(name, { routine := kindStr, var := var, values := vals, times := ts.map .num })] =
          .ok { sch with routines :=
                  updateAssoc sch.routines name (var, kind, Routine.init (.list ts) vals) }) ∧
    (∀ (ts : List ℚ) (vals : PyVal) (w : ℕ → ℚ) (k : ℕ) (c : Clock), 3 ≤ ts.length →
        Hold.next w k c (Routine.init (.list ts) vals) =
          .error "IndexError: The times argument must be either a 1- or 2- element list, or a number!") ∧
    (∀ (times : PyVal) (x : ℚ), (Routine.init times (.num x)).values_iter = none) ∧
    (∀ (w : ℕ → ℚ) (k : ℕ) (c : Clock) (r : RoutineState) (start : ℚ) (stop : Option ℚ),
        Sweep.window r.times = .ok (start, stop) → r.values_iter = none →
        inWindow ((c.timeC w k)).1 start stop = true →
        Sweep.next w k c r = .error "AttributeError: values_iter is not set") ∧
    (∀ (w : ℕ → ℚ) (k : ℕ) (c : Clock) (r : RoutineState) (stop : ℚ),
        Transit.window r.times = .ok stop → r.values_iter = none →
        ((c.timeC w k)).1 ≤ stop →
        Transit.next w k c r = .error "AttributeError: values_iter is not set") := by
  refine ⟨?_, ?_, ?_, ?_, ?_⟩
  · intro sch name kindStr var vals ts kind hk
    simp [Schedule.add, Schedule.addOne, convertTimes_num, hk, Bind.bind, Except.bind]
  · intro ts vals w k c hlen
    simp [Hold.next, Routine.init, Hold.window_long ts hlen, Bind.bind, Except.bind]
  · intro times x
    rfl
  · intro w k c r start stop hw hvi hin
    simp [Sweep.next, hw, hvi, hin, Bind.bind, Except.bind]
  · intro w k c r stop hw hvi hle
    simp [Transit.next, hw, hvi, hle, Bind.bind, Except.bind]

/-- Witness for C6 amended: the malformed 3-bound Hold spec builds
without error via Schedule.add and fails only at advance time; a Sweep
and a Transit over a bare-number value spec fail only at advance time. -/
theorem C6_witness :
    Schedule.add { clock := Clock.started 0, routines := [] }
        [("h3", { routine := "Hold", var := "kn", values := .num 3,
                  times := ([1, 2, 3] : List ℚ).map .num })] =
      .ok { clock := Clock.started 0,
            routines :=
              updateAssoc [] "h3" ("kn", .hold, Routine.init (.list [1, 2, 3]) (.num 3)) } ∧
    Hold.next w1 4 (Clock.started 0) (Routine.init (.list [1, 2, 3]) (.num 3)) =
      .error "IndexError: The times argument must be either a 1- or 2- element list, or a number!" ∧
    (Routine.init (.list [0, 10]) (.num 5)).values_iter = none ∧
    Sweep.next w1 4 (Clock.started 0) (Routine.init (.list [0, 10]) (.num 5)) =
      .error "AttributeError: values_iter is not set" ∧
    Transit.next w1 4 (Clock.started 0) (Routine.init (.num 5) (.num 7)) =
      .error "AttributeError: values_iter is not set" := by
  refine ⟨?_, ?_, ?_, ?_, ?_⟩
  · exact C6_amended_deferred_errors.1 { clock := Clock.started 0, routines := [] }
      "h3" "Hold" "kn" (.num 3) [1, 2, 3] .hold rfl
  · exact C6_amended_deferred_errors.2.1 [1, 2, 3] (.num 3) w1 4 (Clock.started 0) (by norm_num)
  · exact C6_amended_deferred_errors.2.2.1 (.list [0, 10]) 5
  · exact C6_amended_deferred_errors.2.2.2.1 w1 4 (Clock.started 0)
      (Routine.init (.list [0, 10]) (.num 5)) 0 (some 10) rfl rfl
      (by norm_num [inWindow, Clock.timeC, Clock.started, truthy, w1])
  · exact C6_amended_deferred_errors.2.2.2.2 w1 4 (Clock.started 0)
      (Routine.init (.num 5) (.num 7)) 5 rfl rfl
      (by norm_num [Clock.timeC, Clock.started, truthy, w1])

/-- C8: the source implements the GEQ alarm condition with the strict
comparison `val > thres`, identical to GREATER, so at value = threshold
it evaluates to false although greater-or-equal holds there; LEQ is the
non-strict comparison, as its name states. -/
theorem C8_geq_is_strict :
    (alarm_map "GEQ").map (fun f => f 5 5) = some false ∧
    (5 : ℚ) ≥ 5 ∧
    (alarm_map "LEQ").map (fun f => f 5 5) = some true ∧
    (alarm_map "GREATER").map (fun f => f 5 5) = some false ∧
    (alarm_map "LESS").map (fun f => f 5 5) = some false ∧
    (alarm_map "IS").map (fun f => f 5 5) = some true ∧
    (alarm_map "NOT").map (fun f => f 5 5) = some false := by
  refine ⟨rfl, le_refl 5, rfl, rfl, rfl, rfl, rfl⟩

end Mercury
